import Mathlib

/-!
Shallow embedding of `src/osint_recon_cli_tool.py`.

The program checks whether a handle (username) is registered on a set of
sites.  Each site is a declarative config (`SiteConfig`); two fetch
strategies exist (`check_with_playwright`, `check_with_requests`); the
batch runner (`check_username`) iterates the selected category's sites and
the score (`possibility_score`) aggregates the per-site results.

Network and browser effects are modelled by passing the observed response
explicitly (`PwFetch` / `ReqFetch`): an `ok` constructor carries what the
fetch produced, the error constructors stand for the exceptions the
Python code catches.  String operations mirror Python semantics:
`strIn n h` is Python `n in h`, `pyLower` is `str.lower`, `pyFormat` is
`str.format` with `\x7b\x7d` slots.
-/

namespace OsintRecon

/-- `listStartsWith n h` : is `n` a prefix of `h`? -/
def listStartsWith : List Char → List Char → Bool
  | [], _ => true
  | _ :: _, [] => false
  | a :: as, b :: bs => a == b && listStartsWith as bs

/-- `listContains n h` : does `n` occur as a contiguous run inside `h`?
(Python `n in h` on strings.) -/
def listContains (needle : List Char) : List Char → Bool
  | [] => listStartsWith needle []
  | h :: t => listStartsWith needle (h :: t) || listContains needle t

/-- Python's `needle in haystack` substring test. -/
def strIn (needle haystack : String) : Bool :=
  listContains needle.toList haystack.toList

/-- Python's `str.lower` (ASCII case folding, which is all the registry uses). -/
def pyLower (s : String) : String :=
  ⟨s.toList.map Char.toLower⟩

/-- Replace each `\x7b\x7d` slot in the template by the handle;
models Python's `template.format(handle)` for the templates the registry
uses (zero or one slot, no other braces).  Inserted text is not rescanned,
as in Python. -/
def replaceSlots (handle : List Char) : List Char → List Char
  | '\x7b' :: '\x7d' :: rest => handle ++ replaceSlots handle rest
  | c :: rest => c :: replaceSlots handle rest
  | [] => []

/-- `template.format(handle)`. -/
def pyFormat (template handle : String) : String :=
  ⟨replaceSlots handle.toList template.toList⟩

/-- One entry of the site registry (the per-site dict in `CATEGORIES`). -/
structure SiteConfig where
  url : String
  method : String
  success_indicators : List String
  failure_indicators : List String
deriving DecidableEq

/-- What one Playwright fetch produced.  `errBeforeLaunch` : the browser
launch itself raised; `errAfterLaunch` : navigation / wait / content
raised after the browser was launched (navigation timeout, script error);
`ok` carries the rendered page content, the post-navigation `page.url`,
and the navigation response status (`none` when `page.goto` returned
`None`). -/
inductive PwFetch
  | errBeforeLaunch
  | errAfterLaunch
  | ok (content currentUrl : String) (status : Option Nat)
deriving DecidableEq

/-- What one `requests.get` produced.  `err` : a `requests.RequestException`
was raised; `ok` carries the status code, the response body and the
post-redirect final URL (the code never reads `response.url`, but it is
part of the observation). -/
inductive ReqFetch
  | err
  | ok (statusCode : Nat) (body finalUrl : String)
deriving DecidableEq

/-- `check_with_playwright` (source lines 90-150).  Failure indicators are
scanned first, then success indicators (formatted with the username), then
the status-200 site-family heuristics on the REQUEST url, else
`(False, "Not Found")`; any exception yields `(False, "Error checking")`. -/
def check_with_playwright (username : String) (cfg : SiteConfig)
    (fetch : PwFetch) : Bool × String :=
  match fetch with
  | .errBeforeLaunch => (false, "Error checking")
  | .errAfterLaunch => (false, "Error checking")
  | .ok content currentUrl status =>
    let url := pyFormat cfg.url username
    let contentL := pyLower content
    if cfg.failure_indicators.any (fun ind => strIn (pyLower ind) contentL) then
      (false, "Not Found")
    else if cfg.success_indicators.any
        (fun ind => strIn (pyLower (pyFormat ind username)) contentL) then
      (true, url)
    else if status = some 200 then
      if strIn "snapchat.com" url then
        if !strIn "/explore/" currentUrl
            && strIn (pyLower username) (pyLower currentUrl) then (true, url)
        else (false, "Not Found")
      else if strIn "instagram.com" url then
        if strIn ("/" ++ username ++ "/") currentUrl
            && !strIn "login" currentUrl then (true, url)
        else (false, "Not Found")
      else if strIn "x.com" url || strIn "twitter.com" url then
        if strIn ("/" ++ username) currentUrl
            && !strIn "home" currentUrl then (true, url)
        else (false, "Not Found")
      else (false, "Not Found")
    else (false, "Not Found")

/-- `check_with_requests` (source lines 152-183).  The `api.github.com`
path decides by status alone; otherwise at status 200 the failure
indicators are scanned and `(True, url)` is returned when none hit; any
non-200 status yields `(False, "Not Found")`; a `RequestException` yields
`(False, "Error checking")`. -/
def check_with_requests (username : String) (cfg : SiteConfig)
    (fetch : ReqFetch) : Bool × String :=
  match fetch with
  | .err => (false, "Error checking")
  | .ok statusCode body _finalUrl =>
    let url := pyFormat cfg.url username
    if strIn "api.github.com" url then
      if statusCode = 200 then (true, url) else (false, "Not Found")
    else if statusCode = 200 then
      if cfg.failure_indicators.any
          (fun ind => strIn (pyLower ind) (pyLower body)) then
        (false, "Not Found")
      else (true, url)
    else (false, "Not Found")

/-- The spec's three probe outcomes, recovered from the `(Bool, message)`
pair the check functions return: `(True, locator)` is Found,
`(False, "Error checking")` is Error, any other `False` is NotFound. -/
inductive Outcome
  | Found (locator : String)
  | NotFound
  | Error
deriving DecidableEq

/-- Map a check function's return pair to the spec's outcome. -/
def outcomeOf (r : Bool × String) : Outcome :=
  if r.1 then .Found r.2
  else if r.2 = "Error checking" then .Error
  else .NotFound

/-- `check_username` (source lines 185-204): iterate the category's sites
in declared order, dispatch on `method == "playwright"` (anything else
uses requests), and record one `(found, message)` pair per site.  The
`oracle` supplies, per site name, what each strategy's fetch would
observe. -/
def check_username (username : String)
    (sites : List (String × SiteConfig))
    (oracle : String → PwFetch × ReqFetch) :
    List (String × (Bool × String)) :=
  sites.map (fun s =>
    (s.1,
      if s.2.method = "playwright" then
        check_with_playwright username s.2 (oracle s.1).1
      else
        check_with_requests username s.2 (oracle s.1).2))

/-- The per-handle loop of `main` (source lines 226-231): one result set
per username, in input order. -/
def run_batch (usernames : List String)
    (sites : List (String × SiteConfig))
    (oracle : String → String → PwFetch × ReqFetch) :
    List (String × List (String × (Bool × String))) :=
  usernames.map (fun u => (u, check_username u sites (oracle u)))

/-- Round a rational to 2 decimal places (Python `round(x, 2)`). -/
def round2 (q : ℚ) : ℚ :=
  ((round (q * 100) : ℤ) : ℚ) / 100

/-- The possibility score of `main` (source lines 233-235):
`round((found_count / total_sites) * 100, 2)` when any site was checked,
else `0`. -/
def possibility_score (results : List (String × (Bool × String))) : ℚ :=
  let found_count := (results.filter (fun r => r.2.1)).length
  let total_sites := results.length
  if total_sites > 0 then
    round2 (((found_count : ℚ) / (total_sites : ℚ)) * 100)
  else 0

/-- First value stored under key `k` in a Python-dict-as-assoc-list. -/
def lookupD {α : Type} (d : List (String × α)) (k : String) : Option α :=
  (d.find? (fun p => p.1 = k)).map (fun p => p.2)

/-- Python's `\x7b**a, **b\x7d` dict merge: `a`'s keys in order with
`b`'s value where the key is shared, then `b`'s new keys in order. -/
def dictMerge {α : Type} (a b : List (String × α)) : List (String × α) :=
  a.map (fun p => (p.1, (lookupD b p.1).getD p.2))
    ++ b.filter (fun p => (lookupD a p.1).isNone)

/-- The Instagram entry of `CATEGORIES["1"]["sites"]` (source lines 22-27). -/
def instagramSite : SiteConfig :=
  { url := "https://www.instagram.com/\x7b\x7d/",
    method := "playwright",
    success_indicators :=
      ["profilePage_", "\"username\":\"\x7b\x7d\"", "content=\"@\x7b\x7d"],
    failure_indicators :=
      ["Sorry, this page isn\x27t available", "User not found"] }

/-- The Facebook entry of `CATEGORIES["1"]["sites"]` (source lines 28-33). -/
def facebookSite : SiteConfig :=
  { url := "https://www.facebook.com/\x7b\x7d/",
    method := "requests",
    success_indicators := [],
    failure_indicators := ["This content isn\x27t available", "Page not found"] }

/-- The Twitter entry of `CATEGORIES["1"]["sites"]` (source lines 34-39). -/
def twitterSite : SiteConfig :=
  { url := "https://x.com/\x7b\x7d/",
    method := "playwright",
    success_indicators :=
      ["data-testid=\"UserName\"", "data-testid=\"UserDescription\""],
    failure_indicators := ["This account doesn\x27t exist", "Account suspended"] }

/-- The Snapchat entry of `CATEGORIES["1"]["sites"]` (source lines 40-45). -/
def snapchatSite : SiteConfig :=
  { url := "https://www.snapchat.com/add/\x7b\x7d/",
    method := "playwright",
    success_indicators := ["data-testid=\"add-friend-button\"", "snapcode"],
    failure_indicators := ["Hmm, couldn\x27t find", "User not found"] }

/-- The LinkedIn entry of `CATEGORIES["2"]["sites"]` (source lines 51-56). -/
def linkedinSite : SiteConfig :=
  { url := "https://www.linkedin.com/in/\x7b\x7d/",
    method := "requests",
    success_indicators := [],
    failure_indicators := ["This LinkedIn profile doesn\x27t exist"] }

/-- The GitHub entry of `CATEGORIES["2"]["sites"]` (source lines 57-62). -/
def githubSite : SiteConfig :=
  { url := "https://api.github.com/users/\x7b\x7d",
    method := "requests",
    success_indicators := [],
    failure_indicators := [] }

/-- `CATEGORIES["1"]["sites"]` (source lines 19-47). -/
def socialSites : List (String × SiteConfig) :=
  [("Instagram", instagramSite), ("Facebook", facebookSite),
   ("Twitter", twitterSite), ("Snapchat", snapchatSite)]

/-- `CATEGORIES["2"]["sites"]` (source lines 48-64). -/
def techSites : List (String × SiteConfig) :=
  [("LinkedIn", linkedinSite), ("GitHub", githubSite)]

/-- `CATEGORIES["3"]["sites"]`, assigned on source line 72 as the dict
merge `\x7b**CATEGORIES["1"]["sites"], **CATEGORIES["2"]["sites"]\x7d`. -/
def allSites : List (String × SiteConfig) :=
  dictMerge socialSites techSites

/-- The category table `CATEGORIES`: choice key, label, site dict. -/
def CATEGORIES : List (String × String × List (String × SiteConfig)) :=
  [("1", "Social Sites", socialSites),
   ("2", "Tech Side", techSites),
   ("3", "All Sites", allSites)]

/-- Browser-session lifecycle events inside `check_with_playwright`. -/
inductive PwEvent
  | launch
  | close
deriving DecidableEq, BEq

/-- `check_with_playwright` instrumented with its session lifecycle.
On the success path the code calls `browser.close()` explicitly; on an
exception after launch the exception unwinds through the
`with sync_playwright()` block, whose exit stops the driver and closes
every browser launched through it, before the `except` handler returns.
If the launch itself raised, no session was ever created. -/
def check_with_playwright_traced (username : String) (cfg : SiteConfig)
    (fetch : PwFetch) : (Bool × String) × List PwEvent :=
  match fetch with
  | .errBeforeLaunch => ((false, "Error checking"), [])
  | .errAfterLaunch => ((false, "Error checking"), [.launch, .close])
  | .ok content currentUrl status =>
    (check_with_playwright username cfg (.ok content currentUrl status),
      [.launch, .close])

/-! ### Association-list lemmas for the Python dict merge -/

theorem lookupD_cons {α : Type} (p : String × α) (l : List (String × α))
    (k : String) :
    lookupD (p :: l) k = if p.1 = k then some p.2 else lookupD l k := by
  by_cases h : p.1 = k <;> simp [lookupD, h]

theorem lookupD_append {α : Type} (a b : List (String × α)) (k : String) :
    lookupD (a ++ b) k = (lookupD a k).or (lookupD b k) := by
  simp only [lookupD, List.find?_append]
  cases a.find? (fun p => p.1 = k) <;> simp

theorem lookupD_map_override {α : Type} (a b : List (String × α)) (k : String) :
    lookupD (a.map (fun p => (p.1, (lookupD b p.1).getD p.2))) k =
      (lookupD a k).map (fun v => (lookupD b k).getD v) := by
  induction a with
  | nil => rfl
  | cons hd tl ih =>
    by_cases h : hd.1 = k
    · simp [lookupD_cons, h]
    · simpa [lookupD_cons, h] using ih

theorem lookupD_filter_new {α : Type} (a b : List (String × α)) (k : String) :
    lookupD (b.filter (fun p => (lookupD a p.1).isNone)) k =
      if (lookupD a k).isNone then lookupD b k else none := by
  induction b with
  | nil => simp [lookupD]
  | cons hd tl ih =>
    by_cases hkeep : (lookupD a hd.1).isNone
    · rw [List.filter_cons_of_pos (by simpa using hkeep)]
      by_cases hk : hd.1 = k
      · subst hk
        simp [lookupD_cons, Option.isNone_iff_eq_none.mp hkeep]
      · rw [lookupD_cons, lookupD_cons, if_neg hk, if_neg hk]
        exact ih
    · rw [List.filter_cons_of_neg (by simpa using hkeep)]
      by_cases hk : hd.1 = k
      · subst hk
        rw [ih]
        simp only [Bool.not_eq_true] at hkeep
        simp [hkeep]
      · rw [ih, lookupD_cons, if_neg hk]

theorem lookupD_dictMerge {α : Type} (a b : List (String × α)) (k : String) :
    lookupD (dictMerge a b) k = (lookupD b k).or (lookupD a k) := by
  rw [dictMerge, lookupD_append, lookupD_map_override, lookupD_filter_new]
  cases ha : lookupD a k <;> cases hb : lookupD b k <;> simp [ha, hb]

/-! ### Rounding lemmas for the possibility score -/

theorem round_le_round_rat {x y : ℚ} (h : x ≤ y) : round x ≤ round y := by
  rw [round_eq, round_eq]
  exact Int.floor_le_floor (by linarith)

theorem round2_nonneg {q : ℚ} (h : 0 ≤ q) : 0 ≤ round2 q := by
  unfold round2
  have h1 : (0 : ℤ) ≤ round (q * 100) := by
    have h2 := round_le_round_rat (show (0 : ℚ) ≤ q * 100 by nlinarith)
    simpa using h2
  have h3 : (0 : ℚ) ≤ ((round (q * 100) : ℤ) : ℚ) := by exact_mod_cast h1
  positivity

theorem round2_le_100 {q : ℚ} (h : q ≤ 100) : round2 q ≤ 100 := by
  unfold round2
  have h1 : round (q * 100) ≤ (10000 : ℤ) := by
    have h2 := round_le_round_rat (show q * 100 ≤ (10000 : ℚ) by nlinarith)
    have h3 : round ((10000 : ℚ)) = (10000 : ℤ) := by
      exact_mod_cast round_intCast (α := ℚ) 10000
    rw [h3] at h2
    exact h2
  rw [div_le_iff₀ (by norm_num)]
  have : ((round (q * 100) : ℤ) : ℚ) ≤ ((10000 : ℤ) : ℚ) := by exact_mod_cast h1
  push_cast at this ⊢
  linarith

/-! ### Claim theorems -/

/-- C4: whenever the fetch raises a transport or render error, the probe
result's outcome is `Error` — never `Found`, never `NotFound` — the error
is absorbed inside the fetch strategy (the check functions are total and
return a pair), and the batch loops still produce one result per site and
one result set per handle. -/
theorem c4_error_isolation (username : String) (cfg : SiteConfig) :
    outcomeOf (check_with_playwright username cfg .errBeforeLaunch) = .Error ∧
    outcomeOf (check_with_playwright username cfg .errAfterLaunch) = .Error ∧
    outcomeOf (check_with_requests username cfg .err) = .Error ∧
    (∀ (sites : List (String × SiteConfig))
        (oracle : String → PwFetch × ReqFetch),
      (check_username username sites oracle).map Prod.fst =
        sites.map Prod.fst) ∧
    (∀ (usernames : List String) (sites : List (String × SiteConfig))
        (oracle : String → String → PwFetch × ReqFetch),
      (run_batch usernames sites oracle).map Prod.fst = usernames) := by
  refine ⟨rfl, rfl, rfl, ?_, ?_⟩
  · intro sites oracle
    simp only [check_username, List.map_map]
    rfl
  · intro usernames sites oracle
    simp only [run_batch, List.map_map]
    exact List.map_id usernames

/-- C7: for every handle, every category and every fetch outcome, the batch
run yields exactly one result per site of the category — same site names,
same count, in the category's declared order — and distinct site names stay
distinct in the output. -/
theorem c7_one_result_per_site (username : String)
    (sites : List (String × SiteConfig))
    (oracle : String → PwFetch × ReqFetch) :
    (check_username username sites oracle).map Prod.fst = sites.map Prod.fst ∧
    (check_username username sites oracle).length = sites.length ∧
    ((sites.map Prod.fst).Nodup →
      ((check_username username sites oracle).map Prod.fst).Nodup) := by
  have key : (check_username username sites oracle).map Prod.fst =
      sites.map Prod.fst := by
    simp only [check_username, List.map_map]
    rfl
  refine ⟨key, ?_, fun h => key ▸ h⟩
  have h2 := congrArg List.length key
  simpa using h2

/-- Witness for C7 at a concrete input: the full registry with an
error-injecting oracle still yields pairwise-distinct site names. -/
theorem c7_one_result_per_site_witness :
    ((check_username "alice" allSites
        (fun _ => (.errAfterLaunch, .err))).map Prod.fst).Nodup :=
  (c7_one_result_per_site "alice" allSites
    (fun _ => (.errAfterLaunch, .err))).2.2 (by decide)

/-- C9: the browser session is torn down on every exit path of the rendered
fetch — explicitly via `browser.close()` on the success path, and via the
exit of the `with sync_playwright()` block when navigation or rendering
raises — so every launch event is matched by a close event before the call
returns; the instrumented run returns the same result as the plain one. -/
theorem c9_session_teardown (username : String) (cfg : SiteConfig)
    (fetch : PwFetch) :
    (check_with_playwright_traced username cfg fetch).2.count PwEvent.launch =
      (check_with_playwright_traced username cfg fetch).2.count PwEvent.close ∧
    (check_with_playwright_traced username cfg fetch).1 =
      check_with_playwright username cfg fetch := by
  cases fetch <;> exact ⟨rfl, rfl⟩

/-- C10: on the lightweight path, a site whose resolved URL contains
`api.github.com` is decided by status alone: Found at the request URL
exactly when the status is 200, NotFound on any other status, and the
site's success and failure markers are never consulted (changing them
cannot change the result). -/
theorem c10_github_status_only (username body finalUrl : String)
    (status : Nat) (cfg : SiteConfig)
    (h : strIn "api.github.com" (pyFormat cfg.url username) = true) :
    (check_with_requests username cfg (.ok status body finalUrl) =
        (true, pyFormat cfg.url username) ↔ status = 200) ∧
    (status ≠ 200 →
      check_with_requests username cfg (.ok status body finalUrl) =
        (false, "Not Found")) ∧
    (∀ (si fi : List String),
      check_with_requests username
        { url := cfg.url, method := cfg.method,
          success_indicators := si, failure_indicators := fi }
        (.ok status body finalUrl) =
        check_with_requests username cfg (.ok status body finalUrl)) := by
  refine ⟨?_, ?_, ?_⟩
  · by_cases hst : status = 200 <;> simp [check_with_requests, h, hst]
  · intro hst
    simp [check_with_requests, h, hst]
  · intro si fi
    simp [check_with_requests, h]

/-- Witness for C10 at a concrete input: the registry's GitHub site with a
200 response is Found at the request URL, and with a 404 it is NotFound. -/
theorem c10_github_status_only_witness :
    check_with_requests "alice" githubSite (.ok 200 "login info" "f") =
      (true, pyFormat githubSite.url "alice") ∧
    check_with_requests "alice" githubSite (.ok 404 "missing" "f") =
      (false, "Not Found") :=
  ⟨(c10_github_status_only "alice" "login info" "f" 200 githubSite
      (by decide)).1.mpr rfl,
   (c10_github_status_only "alice" "missing" "f" 404 githubSite
      (by decide)).2.1 (by decide)⟩

/-- C1 counterexample: the claim "a failure-marker hit always yields
NotFound, for both fetch strategies" fails on the lightweight strategy.
For the registry's Facebook site and the handle `api.github.com` (handles
are unrestricted opaque strings), the resolved URL contains
`api.github.com`, so the status-only GitHub path runs first: with status
200 and a body consisting exactly of the lowercased failure marker
"Page not found", the result is Found, not NotFound. -/
theorem c1_counterexample :
    strIn (pyLower "Page not found") (pyLower "page not found") = true ∧
    outcomeOf (check_with_requests "api.github.com" facebookSite
        (.ok 200 "page not found" "https://www.facebook.com/api.github.com/")) =
      .Found "https://www.facebook.com/api.github.com/" := by
  constructor
  · decide
  · rfl

/-- C1 amended: a failure-marker hit (case-insensitive substring of the
body) yields NotFound even when success markers also occur, for every
marker order — unconditionally on the rendered strategy, and on the
lightweight strategy whenever the resolved request URL does not contain
`api.github.com` (on that URL the status-only GitHub path bypasses all
markers). -/
theorem c1_failure_precedence :
    (∀ (username content currentUrl : String) (st : Option Nat)
        (cfg : SiteConfig) (m : String),
      m ∈ cfg.failure_indicators →
      strIn (pyLower m) (pyLower content) = true →
      check_with_playwright username cfg (.ok content currentUrl st) =
        (false, "Not Found")) ∧
    (∀ (username body finalUrl : String) (status : Nat)
        (cfg : SiteConfig) (m : String),
      m ∈ cfg.failure_indicators →
      strIn (pyLower m) (pyLower body) = true →
      strIn "api.github.com" (pyFormat cfg.url username) = false →
      check_with_requests username cfg (.ok status body finalUrl) =
        (false, "Not Found")) := by
  constructor
  · intro username content currentUrl st cfg m hm hhit
    have hany : cfg.failure_indicators.any
        (fun ind => strIn (pyLower ind) (pyLower content)) = true :=
      List.any_eq_true.mpr ⟨m, hm, hhit⟩
    simp [check_with_playwright, hany]
  · intro username body finalUrl status cfg m hm hhit hgh
    have hany : cfg.failure_indicators.any
        (fun ind => strIn (pyLower ind) (pyLower body)) = true :=
      List.any_eq_true.mpr ⟨m, hm, hhit⟩
    by_cases hst : status = 200 <;>
      simp [check_with_requests, hgh, hst, hany]

/-- Witness for C1 at a concrete input: the registry's Twitter site, a
body that contains BOTH a success marker and the failure marker
"This account doesn't exist", and status 200 — failure wins. -/
theorem c1_failure_precedence_witness :
    ("This account doesn\x27t exist" ∈ twitterSite.failure_indicators) ∧
    check_with_playwright "alice" twitterSite
      (.ok "data-testid=\"UserName\" This account doesn\x27t exist"
        "https://x.com/alice" (some 200)) = (false, "Not Found") :=
  ⟨by decide,
   c1_failure_precedence.1 "alice"
     "data-testid=\"UserName\" This account doesn\x27t exist"
     "https://x.com/alice" (some 200) twitterSite
     "This account doesn\x27t exist" (by decide) (by decide)⟩

/-- C2 counterexample: the claim says a success-marker hit yields Found at
`observation.finalUrl` (the post-redirect URL).  On the registry's
Instagram site with handle `alice`, a body containing the success marker
`profilePage_` and a post-navigation URL that redirected to the login
page, the code returns Found at the REQUEST url
`https://www.instagram.com/alice/`, which differs from the final URL. -/
theorem c2_counterexample :
    outcomeOf (check_with_playwright "alice" instagramSite
        (.ok "profilepage_" "https://www.instagram.com/accounts/login/"
          (some 200))) = .Found "https://www.instagram.com/alice/" ∧
    ("https://www.instagram.com/alice/" : String) ≠
      "https://www.instagram.com/accounts/login/" := by
  constructor
  · rfl
  · decide

/-- C2 amended: with a body present and no failure-marker hit, a
success-marker hit (handle substituted, lowercased) yields Found with
locator equal to the RESOLVED REQUEST URL (the url template with the
handle substituted), not the post-redirect URL; on the lightweight
strategy, Found at the request URL is returned at status 200 with no
failure-marker hit whether or not a success marker occurs (that strategy
never consults success markers). -/
theorem c2_success_locator :
    (∀ (username content currentUrl : String) (st : Option Nat)
        (cfg : SiteConfig),
      cfg.failure_indicators.any
        (fun ind => strIn (pyLower ind) (pyLower content)) = false →
      (∃ m, m ∈ cfg.success_indicators ∧
        strIn (pyLower (pyFormat m username)) (pyLower content) = true) →
      check_with_playwright username cfg (.ok content currentUrl st) =
        (true, pyFormat cfg.url username)) ∧
    (∀ (username body finalUrl : String) (cfg : SiteConfig),
      cfg.failure_indicators.any
        (fun ind => strIn (pyLower ind) (pyLower body)) = false →
      check_with_requests username cfg (.ok 200 body finalUrl) =
        (true, pyFormat cfg.url username)) := by
  constructor
  · intro username content currentUrl st cfg hfail hsucc
    obtain ⟨m, hm, hhit⟩ := hsucc
    have hany : cfg.success_indicators.any
        (fun ind => strIn (pyLower (pyFormat ind username))
          (pyLower content)) = true :=
      List.any_eq_true.mpr ⟨m, hm, hhit⟩
    simp [check_with_playwright, hfail, hany]
  · intro username body finalUrl cfg hfail
    by_cases hg : strIn "api.github.com" (pyFormat cfg.url username) = true <;>
      simp [check_with_requests, hg, hfail]

/-- Witness for C2 at concrete inputs: the Instagram success-marker case
and a LinkedIn 200-with-clean-body case, both located at the request URL. -/
theorem c2_success_locator_witness :
    check_with_playwright "alice" instagramSite
      (.ok "profilepage_" "https://www.instagram.com/accounts/login/"
        (some 200)) = (true, pyFormat instagramSite.url "alice") ∧
    check_with_requests "bob" linkedinSite
      (.ok 200 "profile of bob" "https://fin.example/") =
      (true, pyFormat linkedinSite.url "bob") :=
  ⟨c2_success_locator.1 "alice" "profilepage_"
     "https://www.instagram.com/accounts/login/" (some 200) instagramSite
     (by decide) ⟨"profilePage_", by decide, by decide⟩,
   c2_success_locator.2 "bob" "profile of bob" "https://fin.example/"
     linkedinSite (by decide)⟩

/-- C3 counterexample: the claim says a site with no configured markers,
status 200 and no recognized site-family fragment is Found at the FINAL
URL for BOTH strategies.  A marker-less rendered (playwright) site on an
unrecognized domain returns NotFound; and the marker-less lightweight path
returns Found at the REQUEST url even when the final URL differs. -/
theorem c3_counterexample :
    check_with_playwright "alice"
      { url := "https://example.com/\x7b\x7d", method := "playwright",
        success_indicators := [], failure_indicators := [] }
      (.ok "some page" "https://example.com/alice" (some 200)) =
      (false, "Not Found") ∧
    check_with_requests "alice"
      { url := "https://example.com/\x7b\x7d", method := "requests",
        success_indicators := [], failure_indicators := [] }
      (.ok 200 "some body" "https://final.example/alice") =
      (true, "https://example.com/alice") ∧
    ("https://example.com/alice" : String) ≠ "https://final.example/alice" := by
  refine ⟨?_, ?_, by decide⟩
  · rfl
  · rfl

/-- C3 amended: for a site definition with no configured markers and a
200 status, the LIGHTWEIGHT strategy returns Found at the resolved request
URL (whatever the final URL is); the RENDERED strategy, when the resolved
request URL contains none of the recognized family fragments
(`snapchat.com`, `instagram.com`, `x.com`, `twitter.com`), returns
NotFound. -/
theorem c3_no_marker_fallback :
    (∀ (username body finalUrl : String) (cfg : SiteConfig),
      cfg.success_indicators = [] →
      cfg.failure_indicators = [] →
      check_with_requests username cfg (.ok 200 body finalUrl) =
        (true, pyFormat cfg.url username)) ∧
    (∀ (username content currentUrl : String) (cfg : SiteConfig),
      cfg.success_indicators = [] →
      cfg.failure_indicators = [] →
      strIn "snapchat.com" (pyFormat cfg.url username) = false →
      strIn "instagram.com" (pyFormat cfg.url username) = false →
      strIn "x.com" (pyFormat cfg.url username) = false →
      strIn "twitter.com" (pyFormat cfg.url username) = false →
      check_with_playwright username cfg (.ok content currentUrl (some 200)) =
        (false, "Not Found")) := by
  constructor
  · intro username body finalUrl cfg _hse hfe
    by_cases hg : strIn "api.github.com" (pyFormat cfg.url username) = true <;>
      simp [check_with_requests, hg, hfe]
  · intro username content currentUrl cfg hse hfe h1 h2 h3 h4
    simp [check_with_playwright, hse, hfe, h1, h2, h3, h4]

/-- Witness for C3 at concrete inputs: a marker-less API-style site is
Found at the request URL on the lightweight path and NotFound on the
rendered path. -/
theorem c3_no_marker_fallback_witness :
    check_with_requests "alice"
      { url := "https://api.example.org/\x7b\x7d", method := "requests",
        success_indicators := [], failure_indicators := [] }
      (.ok 200 "json data" "https://api.example.org/alice") =
      (true, pyFormat "https://api.example.org/\x7b\x7d" "alice") ∧
    check_with_playwright "alice"
      { url := "https://api.example.org/\x7b\x7d", method := "playwright",
        success_indicators := [], failure_indicators := [] }
      (.ok "json data" "https://api.example.org/alice" (some 200)) =
      (false, "Not Found") :=
  ⟨c3_no_marker_fallback.1 "alice" "json data" "https://api.example.org/alice"
     _ rfl rfl,
   c3_no_marker_fallback.2 "alice" "json data" "https://api.example.org/alice"
     _ rfl rfl (by decide) (by decide) (by decide) (by decide)⟩

/-- C5: the possibility score is `100 * foundCount / totalSites` rounded
to two decimal places, is `0` when no sites were checked, and always lies
in `[0, 100]`. -/
theorem c5_presence_score (results : List (String × (Bool × String))) :
    (results.length = 0 → possibility_score results = 0) ∧
    (results.length ≠ 0 →
      possibility_score results =
        round2 (100 * ((results.filter (fun r => r.2.1)).length : ℚ) /
          (results.length : ℚ))) ∧
    0 ≤ possibility_score results ∧ possibility_score results ≤ 100 := by
  have hb : results.length ≠ 0 →
      0 ≤ ((results.filter (fun r => r.2.1)).length : ℚ) /
          (results.length : ℚ) * 100 ∧
      ((results.filter (fun r => r.2.1)).length : ℚ) /
          (results.length : ℚ) * 100 ≤ 100 := by
    intro hne
    have htpos : (0 : ℚ) < (results.length : ℚ) := by
      exact_mod_cast Nat.pos_of_ne_zero hne
    have hft : ((results.filter (fun r => r.2.1)).length : ℚ) ≤
        (results.length : ℚ) := by
      exact_mod_cast List.length_filter_le (fun r => r.2.1) results
    constructor
    · positivity
    · rw [div_mul_eq_mul_div, div_le_iff₀ htpos]
      nlinarith
  refine ⟨?_, ?_, ?_, ?_⟩
  · intro h0
    simp [possibility_score, h0]
  · intro hne
    have hpos : 0 < results.length := Nat.pos_of_ne_zero hne
    simp only [possibility_score, if_pos hpos]
    congr 1
    ring
  · by_cases h0 : results.length = 0
    · simp [possibility_score, h0]
    · have hpos : 0 < results.length := Nat.pos_of_ne_zero h0
      simp only [possibility_score, if_pos hpos]
      exact round2_nonneg (hb h0).1
  · by_cases h0 : results.length = 0
    · simp [possibility_score, h0]
    · have hpos : 0 < results.length := Nat.pos_of_ne_zero h0
      simp only [possibility_score, if_pos hpos]
      exact round2_le_100 (hb h0).2

/-- Witness for C5 at a concrete input (the spec's end-to-end example
shape: one Found, one NotFound, one Error out of three sites): the score
is `round2 (100 * 1 / 3) = 33.33`. -/
theorem c5_presence_score_witness :
    possibility_score
      [("A", (true, "https://a.example/alice")),
       ("B", (false, "Not Found")), ("C", (false, "Error checking"))] =
      round2 (100 * (1 : ℚ) / 3) ∧
    possibility_score
      [("A", (true, "https://a.example/alice")),
       ("B", (false, "Not Found")), ("C", (false, "Error checking"))] =
      3333 / 100 := by
  have h := (c5_presence_score
    [("A", (true, "https://a.example/alice")),
     ("B", (false, "Not Found")), ("C", (false, "Error checking"))]).2.1
    (by decide)
  exact ⟨by simpa using h, h.trans (by norm_num [round2, round_eq])⟩

/-- C6: the "All Sites" category's site dict is exactly the Python dict
merge of the other two categories, its lookup is the name-keyed union
with the later category winning on shared names, and every site name
appears exactly once in it. -/
theorem c6_all_sites_union :
    allSites = dictMerge socialSites techSites ∧
    (∀ k : String,
      lookupD allSites k = (lookupD techSites k).or (lookupD socialSites k)) ∧
    (allSites.map Prod.fst).Nodup := by
  refine ⟨rfl, ?_, ?_⟩
  · intro k
    exact lookupD_dictMerge socialSites techSites k
  · decide

/-- C8 counterexample: the claim says that with no transport error, no
marker hit and no heuristic applied, an ABSENT status code yields
Indeterminate (outcome Error), never NotFound.  On the registry's Twitter
site with an empty body (no marker can hit) and `page.goto` returning no
response (status `none`), the code falls through to NotFound. -/
theorem c8_counterexample :
    twitterSite.failure_indicators.any
      (fun ind => strIn (pyLower ind) (pyLower "")) = false ∧
    twitterSite.success_indicators.any
      (fun ind => strIn (pyLower (pyFormat ind "alice")) (pyLower "")) =
        false ∧
    outcomeOf (check_with_playwright "alice" twitterSite (.ok "" "" none)) =
      .NotFound := by
  refine ⟨by decide, by decide, rfl⟩

/-- C8 amended: with no transport error, no marker hit and no site-family
heuristic applied, a present status other than 200 yields NotFound — and
an absent status code ALSO yields NotFound on the rendered strategy (the
matcher returns Indeterminate/Error only when the fetch raised). -/
theorem c8_status_fallback :
    (∀ (username content currentUrl : String) (st : Option Nat)
        (cfg : SiteConfig),
      cfg.failure_indicators.any
        (fun ind => strIn (pyLower ind) (pyLower content)) = false →
      cfg.success_indicators.any
        (fun ind => strIn (pyLower (pyFormat ind username))
          (pyLower content)) = false →
      st ≠ some 200 →
      check_with_playwright username cfg (.ok content currentUrl st) =
        (false, "Not Found")) ∧
    (∀ (username body finalUrl : String) (status : Nat) (cfg : SiteConfig),
      status ≠ 200 →
      check_with_requests username cfg (.ok status body finalUrl) =
        (false, "Not Found")) := by
  constructor
  · intro username content currentUrl st cfg hfail hsucc hst
    simp [check_with_playwright, hfail, hsucc, hst]
  · intro username body finalUrl status cfg hst
    by_cases hg : strIn "api.github.com" (pyFormat cfg.url username) = true <;>
      simp [check_with_requests, hg, hst]

/-- Witness for C8 at concrete inputs: Twitter rendered with no response
object, and LinkedIn lightweight with a 404, both NotFound. -/
theorem c8_status_fallback_witness :
    check_with_playwright "alice" twitterSite (.ok "" "" none) =
      (false, "Not Found") ∧
    check_with_requests "alice" linkedinSite (.ok 404 "gone" "f") =
      (false, "Not Found") :=
  ⟨c8_status_fallback.1 "alice" "" "" none twitterSite (by decide) (by decide)
     (by decide),
   c8_status_fallback.2 "alice" "gone" "f" 404 linkedinSite (by decide)⟩

end OsintRecon
